import Mathlib

/-!
Verification development for the knime-audit service.

The Python sources (`main.py`, `audit_info.py`, `log_reader_thread.py`,
`audit_sender.py`, `knime_rest_api.py`) are shallowly embedded below:
pure string manipulation becomes functions on `List Char` / `String`,
fallible Python code becomes `Except PyError`, the file system becomes
explicit lists of paths, and the two long-running loops become explicit
step functions on state records.
-/

set_option autoImplicit false

namespace KnimeAudit

/-- Python exceptions that the embedded code can raise. -/
inductive PyError where
  | nameError (n : String)
  | attributeError (n : String)
  | indexError
  | ioError
  | fileExistsError
  | apiError (msg : String)
  deriving DecidableEq, Repr

/-! ### Character-list utilities mirroring Python string primitives -/

/-- One step bound of `str.replace`: fuel-indexed so that it reduces by `rfl`.
Mirrors Python's left-to-right, non-overlapping replacement. -/
def replaceAux : Nat → List Char → List Char → List Char → List Char
  | 0, _, _, hay => hay
  | _ + 1, _, _, [] => []
  | n + 1, pat, rep, c :: rest =>
    if pat ≠ [] ∧ pat.isPrefixOf (c :: rest) then
      rep ++ replaceAux n pat rep ((c :: rest).drop pat.length)
    else
      c :: replaceAux n pat rep rest

/-- Python `s.replace(pat, rep)`. -/
def pyReplace (s pat rep : String) : String :=
  ⟨replaceAux s.data.length pat.data rep.data s.data⟩

/-- Python `s.strip()`: drop whitespace from both ends. -/
def stripChars (cs : List Char) : List Char :=
  ((cs.dropWhile Char.isWhitespace).reverse.dropWhile Char.isWhitespace).reverse

/-- Python `s.strip()` on strings. -/
def pyStrip (s : String) : String := ⟨stripChars s.data⟩

/-- Python `s.split()` (no argument): split on runs of whitespace,
discarding empty pieces. -/
def splitWsAux (acc : List Char) : List Char → List (List Char)
  | [] => if acc.isEmpty then [] else [acc.reverse]
  | c :: cs =>
    if c.isWhitespace then
      if acc.isEmpty then splitWsAux [] cs else acc.reverse :: splitWsAux [] cs
    else
      splitWsAux (c :: acc) cs

/-- Python `s.split()` on strings. -/
def pySplit (s : String) : List String :=
  (splitWsAux [] s.data).map String.mk

/-- Substring containment over char lists (Python `pat in s`). -/
def listContains (pat : List Char) : List Char → Bool
  | [] => pat.isEmpty
  | c :: rest => pat.isPrefixOf (c :: rest) || listContains pat rest

/-- Python `pat in s` for strings. -/
def pyContains (s pat : String) : Bool := listContains pat.data s.data

/-! ### `audit_info.py` -/

/-- The character-to-escape table of `AuditInfo.escape_field`
(`'<':'&lt', '&':'&amp', '>':'&gt', "'":'&apos', '"':'&quot'`;
the source's replacement strings have no trailing semicolon). -/
def escape_char (c : Char) : String :=
  if c = '<' then "&lt"
  else if c = '&' then "&amp"
  else if c = '>' then "&gt"
  else if c = Char.ofNat 39 then "&apos"
  else if c = Char.ofNat 34 then "&quot"
  else String.singleton c

/-- `AuditInfo.escape_field`: empty (falsy) strings are returned untouched,
otherwise every character is passed through the escape table. -/
def escape_field (field : String) : String :=
  if field.isEmpty then field
  else String.join (field.data.map escape_char)

/-- The constructed `AuditInfo` object.  `paths` is an `Option` because the
Python constructor only assigns `self.paths` when the argument list is
truthy, so the attribute can be absent. -/
structure AuditInfo where
  job_id : String
  user_id : String
  host : String
  workflow_state : String
  workflow_timestamp : String
  error_message : String
  paths : Option (List String)
  audit_path : String
  deriving DecidableEq, Repr

/-- `AuditInfo.__init__`.  The source reads
`if paths: self.paths = [self.escape_field(e) for e in a]`; the name `a`
is unbound, so a non-empty `paths` argument raises `NameError` before the
object is fully constructed.  An empty list skips the branch and leaves
the `paths` attribute unassigned (`none`). -/
def AuditInfo.init (job_id user_id host workflow_state workflow_timestamp
    error_message : String) (paths : List String) (audit_path : String) :
    Except PyError AuditInfo :=
  if paths.isEmpty then
    .ok {
      job_id := escape_field job_id
      user_id := escape_field user_id
      host := escape_field host
      workflow_state := escape_field workflow_state
      workflow_timestamp := escape_field workflow_timestamp
      error_message := escape_field error_message
      paths := none
      audit_path := escape_field audit_path }
  else
    .error (.nameError "a")

/-- `AuditInfo.as_xml`: the f-string reads `self.paths`; when the attribute
was never assigned this raises `AttributeError`. -/
def AuditInfo.as_xml (ai : AuditInfo) : Except PyError String :=
  match ai.paths with
  | none => .error (.attributeError "paths")
  | some ps => .ok
      ("<?xml version=\"1.0\" encoding=\"UTF-8\" standalone=\"yes\"?>\n" ++
       "<auditEventList xmlns=\"http://www.example.com/AuditEvent\">\n" ++
       "    <auditEvent>\n        <actor>\n            <id>" ++ ai.user_id ++
       "</id>\n            <name>" ++ ai.user_id ++
       "</name>\n        </actor>\n        <application>\n" ++
       "            <component>KNIME Server</component>\n" ++
       "            <hostName>" ++ ai.host ++
       "</hostName>\n            <name>KNIME</name>\n        </application>\n" ++
       "         <action>\n            <actionType>" ++ ai.workflow_state ++
       "</actionType>\n            <additionalInfo name=\"jobId\">" ++ ai.job_id ++
       "</additionalInfo>\n            <additionalInfo name=\"errorMessage\">" ++
       ai.error_message ++
       "</additionalInfo>\n            <additionalInfo name=\"paths\">" ++
       String.intercalate "," ps ++
       "</additionalInfo>\n            <additionalInfo name=\"audit_path\">" ++
       ai.audit_path ++
       "</additionalInfo>\n            <timestamp>" ++ ai.workflow_timestamp ++
       "</timestamp>\n        </action>\n    </auditEvent>\n</auditEventList>")

/-! ### `log_reader_thread.py` -/

/-- `LogReaderThread.extract_job_id`: on a line containing either completion
marker, take the 8th-from-last whitespace token (`line.split()[-8]`,
raising `IndexError` when fewer than 8 tokens exist) and delete every
parenthesis character from it; other lines yield `""`. -/
def extract_job_id (line : String) : Except PyError String :=
  if pyContains line "EXECUTION_FAILED" || pyContains line "EXECUTION_FINISHED" then
    let toks := pySplit line
    if 8 ≤ toks.length then
      -- toks[-8]; the `getD` default is dead code under the length guard
      .ok (pyReplace (pyReplace (toks.getD (toks.length - 8) "") "(" "") ")" "")
    else
      .error .indexError
  else
    .ok ""

/-- Split a byte (char) sequence into the lines produced by Python's
`for line in f`: each line keeps its trailing newline; a final fragment
without a newline is yielded as-is; an empty tail yields nothing. -/
def splitLinesAux (acc : List Char) : List Char → List (List Char)
  | [] => if acc.isEmpty then [] else [acc.reverse]
  | c :: cs =>
    if c = '\n' then (acc.reverse ++ ['\n']) :: splitLinesAux [] cs
    else splitLinesAux (c :: acc) cs

/-- File content to line list. -/
def splitLines (cs : List Char) : List (List Char) := splitLinesAux [] cs

/-- The per-line body of the tailing loop: strip the line, extract a job id,
emit it when non-empty.  An `IndexError` from `extract_job_id` aborts the
iteration (it is not caught by the `except IOError` handler). -/
def emit_lines : List (List Char) → Except PyError (List String)
  | [] => .ok []
  | l :: ls =>
    match extract_job_id (pyStrip ⟨l⟩) with
    | .error e => .error e
    | .ok j =>
      match emit_lines ls with
      | .error e => .error e
      | .ok rest => .ok (if j = "" then rest else j :: rest)

/-- One successful open of the log file inside `LogReaderThread.run`:
seek to `pos`, read line by line to end of file, emit the job ids, and
return the new stored offset (`f.tell()`, the end of the content). -/
def run_pass (content : List Char) (pos : Nat) :
    Except PyError (List String × Nat) :=
  match emit_lines (splitLines (content.drop pos)) with
  | .error e => .error e
  | .ok ids => .ok (ids, content.length)

/-- `TailState`: the loop variables of `LogReaderThread.run` —
`previous_filename`, `file_position` and `current_delay` (the wall-clock
second at which the new day's file was first observed). -/
structure TailState where
  previous_filename : String
  file_position : Nat
  current_delay : Option Nat
  deriving DecidableEq, Repr

/-- Outcome of one iteration of the tailing loop: either the loop continues
(with the ids pushed to the queue and the updated offset), or an uncaught
exception escaped `run` and the thread is dead. -/
inductive IterResult where
  | go (emitted : List String) (newPos : Nat)
  | crashed (e : PyError)
  deriving DecidableEq, Repr

/-- The rollover logic of `LogReaderThread.run` (lines 64-82): decide which
file to read this iteration, the position to seek to, and the pending
grace-delay timestamp.  Clock values are whole seconds. -/
def tailer_select (log_delay : Nat) (st : TailState) (today : String)
    (new_exists : Bool) (now : Nat) : String × Nat × Option Nat :=
  if st.previous_filename ≠ today then
    if !new_exists then
      (st.previous_filename, st.file_position, st.current_delay)
    else
      match st.current_delay with
      | none => (st.previous_filename, st.file_position, some now)
      | some t0 =>
        if now - t0 > log_delay then (today, 0, none)
        else (st.previous_filename, st.file_position, st.current_delay)
  else
    (today, st.file_position, st.current_delay)

/-- One full iteration of the `while True` loop of `LogReaderThread.run`:
select the file, open and tail it (an `IOError` — a missing file — is
caught and logged; any other exception crashes the thread), and store the
processed filename as `previous_filename`. -/
def tailer_step (log_delay : Nat) (st : TailState) (today : String)
    (fs : String → Option (List Char)) (now : Nat) : IterResult × TailState :=
  let sel := tailer_select log_delay st today (fs today).isSome now
  match fs sel.1 with
  | none =>
    (.go [] sel.2.1,
     { previous_filename := sel.1, file_position := sel.2.1, current_delay := sel.2.2 })
  | some content =>
    match run_pass content sel.2.1 with
    | .ok (ids, newPos) =>
      (.go ids newPos,
       { previous_filename := sel.1, file_position := newPos, current_delay := sel.2.2 })
    | .error e => (.crashed e, st)

/-- Iterate the tailing loop `n` times against a fixed file system, the
clock advancing by one second per iteration. -/
def tailer_iterate (log_delay : Nat) (today : String)
    (fs : String → Option (List Char)) : Nat → TailState → Nat → TailState
  | 0, st, _ => st
  | n + 1, st, now => tailer_iterate log_delay today fs n (tailer_step log_delay st today fs now).2 (now + 1)

/-- The startup sequence of `LogReaderThread.run` (lines 57-61): open the
current file — unprotected by any handler, so a missing file kills the
thread — and take its end-of-file offset as the initial position. -/
def run_start (fs : String → Option (List Char)) (filename : String) :
    Except PyError Nat :=
  match fs filename with
  | none => .error .ioError
  | some content => .ok content.length

/-! ### `main.py` — archive rewriter (`extract_knwf_info`) -/

/-- The marker looked up in every `settings.xml`
(`'<entry key="path" type="xstring" value="'`). -/
def xml_path_value : String := "<entry key=\"path\" type=\"xstring\" value=\""

/-- Lines 175-177 of `main.py`: the path entries of one settings document —
for each line containing the marker, delete the marker, delete `"/>`,
and strip whitespace. -/
def paths_in_lines (lines : List String) : List String :=
  (lines.filter (fun l => pyContains l xml_path_value)).map
    (fun l => pyStrip (pyReplace (pyReplace l xml_path_value "") "\"/>" ""))

/-- One directory yielded by `os.walk`: its plain files, each a name with
its content as a list of lines. -/
structure WalkDir where
  files : List (String × List String)
  deriving DecidableEq, Repr

/-- The settings-document batch a directory contributes after the deletion
pass: files not on the keep-list were just removed from disk, so the
`os.path.isfile` check only finds `settings.xml` if it was kept. -/
def dir_batch (files_to_keep : List String) (d : WalkDir) : List String :=
  match (d.files.filter (fun f => f.1 ∈ files_to_keep)).find?
      (fun f => f.1 = "settings.xml") with
  | some f => paths_in_lines f.2
  | none => []

/-- The `os.walk` loop of `extract_knwf_info` (lines 160-184): per
directory, delete files not on the keep-list; then, if the accumulated
path count is still below `max_paths`, append every path of this
directory's (surviving) settings document; otherwise append the `"..."`
sentinel once.  Returns the filtered directories and the final
accumulator. -/
def process_dirs (max_paths : Nat) (files_to_keep : List String) :
    List WalkDir → List String → List WalkDir × List String
  | [], acc => ([], acc)
  | d :: ds, acc =>
    let kept : WalkDir := ⟨d.files.filter (fun f => f.1 ∈ files_to_keep)⟩
    let acc' :=
      if acc.length < max_paths then
        acc ++ dir_batch files_to_keep d
      else
        if "..." ∈ acc then acc else acc ++ ["..."]
    let r := process_dirs max_paths files_to_keep ds acc'
    (kept :: r.1, r.2)

/-- The unpacked archive: the directories `os.walk` visits under
`<extraction_root>/<job_id>/<workflow_name>`, in walk order, plus the
entries of the archive lying outside that subtree (the walk never sees
them). -/
structure KnwfArchive where
  walked : List WalkDir
  outside : List WalkDir
  deriving DecidableEq, Repr

/-- The in-place rewrite of the archive contents: the walked subtree is
filtered and scanned; everything outside the walked root is repacked
untouched. -/
def rewrite_archive (max_paths : Nat) (files_to_keep : List String)
    (a : KnwfArchive) : KnwfArchive × List String :=
  let r := process_dirs max_paths files_to_keep a.walked []
  ({ walked := r.1, outside := a.outside }, r.2)

/-- `shutil.make_archive(input_path, 'zip', folder)`: creates the file
`input_path + ".zip"` next to the existing files. -/
def make_archive_fs (fs : List String) (input_path : String) : List String :=
  fs ++ [input_path ++ ".zip"]

/-- `shutil.move(src, dst)`: the file disappears from `src` and appears at
`dst`. -/
def move_fs (fs : List String) (src dst : String) : List String :=
  fs.filter (fun p => p ≠ src) ++ [dst]

/-- Lines 187-188 of `main.py`: repack the temporary folder to
`input_path + ".zip"` and rename the result over `input_path`. -/
def repack_paths (fs : List String) (input_path : String) : List String :=
  move_fs (make_archive_fs fs input_path) (input_path ++ ".zip") input_path

/-- The step sequence of `extract_knwf_info` with its failure points:
unzip (`ZipFile.extractall`), the walk (deletion pass + settings scan),
`make_archive`, and `move`.  The second component records whether the
`shutil.rmtree` cleanup at the end of the function ran: any exception
raised earlier propagates immediately, skipping it (there is no
`try/finally`). -/
def extract_knwf_run (unzip : Except PyError Unit)
    (walk : Except PyError (List String)) (mk : Except PyError Unit)
    (mv : Except PyError Unit) : Except PyError (List String) × Bool :=
  match unzip with
  | .error e => (.error e, false)
  | .ok _ =>
    match walk with
    | .error e => (.error e, false)
    | .ok paths =>
      match mk with
      | .error e => (.error e, false)
      | .ok _ =>
        match mv with
        | .error e => (.error e, false)
        | .ok _ => (.ok paths, true)

/-! ### `main.py` — backup writer (`generate_job_backup`) -/

/-- A zero-padded decimal digit character. -/
def dChar (d : Nat) : Char := Char.ofNat (48 + d % 10)

/-- `strftime` two-digit zero-padded field (`%m`, `%d`, `%H`, `%M`, `%S`). -/
def pad2 (n : Nat) : String := ⟨[dChar (n / 10), dChar n]⟩

/-- `strftime` four-digit zero-padded year (`%Y`). -/
def pad4 (n : Nat) : String := ⟨[dChar (n / 1000), dChar (n / 100), dChar (n / 10), dChar n]⟩

/-- A wall-clock timestamp at second granularity. -/
structure DT where
  year : Nat
  month : Nat
  day : Nat
  hour : Nat
  minute : Nat
  second : Nat
  deriving DecidableEq, Repr

/-- `timestamp.strftime("%Y%m%d")`. -/
def fmt_date (t : DT) : String := pad4 t.year ++ pad2 t.month ++ pad2 t.day

/-- `timestamp.strftime("%Y%m%d%H%M%S")`. -/
def fmt_datetime (t : DT) : String :=
  pad4 t.year ++ pad2 t.month ++ pad2 t.day ++ pad2 t.hour ++ pad2 t.minute ++ pad2 t.second

/-- `os.path.join` for a relative second component. -/
def pathJoin (a b : String) : String := a ++ "/" ++ b

/-- The job metadata consumed by the processor loop: the fields of the
`get_job_info` document that `main` reads. -/
structure JobInfo where
  owner : String
  state : String
  workflow : String
  nodeMessages : List String
  deriving DecidableEq, Repr

/-- File system as explicit path lists: the existing directories and the
existing plain files (contents are outside the model). -/
structure FS where
  dirs : List String
  files : List String
  deriving DecidableEq, Repr

/-- The per-job backup directory name `f"{job_id}-{timestamp}"`. -/
def job_dir_name (job_id : String) (t : DT) : String :=
  job_id ++ "-" ++ fmt_datetime t

/-- `generate_job_backup` (`main.py` lines 66-126): create the daily folder
only if absent, create the per-job folder (`os.makedirs` without
`exist_ok` raises if it already exists), write `job-summary.json`,
`workflow-summary.json` and `<job_id>.knwf` (the knwf file is created by
`open(..., 'wb')` before the download; a download failure propagates),
and return the knwf path. -/
def generate_job_backup (fs : FS) (job_id : String) (job_info : JobInfo)
    (workflow_backup_parent_path : String) (t : DT)
    (download : String → Except PyError Unit) : Except PyError String × FS :=
  let daily := pathJoin workflow_backup_parent_path (fmt_date t)
  let fs1 := if daily ∈ fs.dirs then fs else { fs with dirs := fs.dirs ++ [daily] }
  let jobdir := pathJoin daily (job_dir_name job_id t)
  if jobdir ∈ fs1.dirs then
    (.error .fileExistsError, fs1)
  else
    let fs2 := { fs1 with dirs := fs1.dirs ++ [jobdir] }
    let fs3 := { fs2 with files := fs2.files ++ [pathJoin jobdir "job-summary.json"] }
    let fs4 := { fs3 with files := fs3.files ++ [pathJoin jobdir "workflow-summary.json"] }
    let knwf := pathJoin jobdir (job_id ++ ".knwf")
    let fs5 := { fs4 with files := fs4.files ++ [knwf] }
    match download job_info.workflow with
    | .error e => (.error e, fs5)
    | .ok _ => (.ok knwf, fs5)

/-! ### `main.py` — processor loop -/

/-- `os.path.split(p)[0]`: everything before the last separator, with
trailing separators stripped unless the head is all separators. -/
def path_split_head (p : String) : String :=
  let r := p.data.reverse
  let afterName := r.dropWhile (fun c => c ≠ '/')
  let headRev := afterName.dropWhile (fun c => c = '/')
  if headRev.isEmpty then ⟨afterName.reverse⟩ else ⟨headRev.reverse⟩

/-- The external effects of one pass of the processor loop, as oracles:
each stage of `main`'s `try` block may raise. -/
structure JobApi where
  get_job_info : String → Except PyError JobInfo
  get_workflow_summary : String → Except PyError Unit
  generate_backup : String → Except PyError String
  extract_paths : String → Except PyError (List String)

/-- The last node message, `job_info["nodeMessages"][-1]["message"]` when
the list is present and non-empty, else `""`. -/
def last_node_message (info : JobInfo) : String :=
  match info.nodeMessages.getLast? with
  | some m => m
  | none => ""

/-- The body of `main`'s `try` block (lines 220-258) for one job id: fetch
metadata and summary, write the backup, rewrite the archive, build the
`AuditInfo`, and hand it to the sender (whose constructor calls
`as_xml`).  The first exception anywhere aborts the chain. -/
def per_job (api : JobApi) (deliver : String → Except PyError Unit)
    (host now : String) (job_id : String) : Except PyError Unit := do
  let info ← api.get_job_info job_id
  let _ ← api.get_workflow_summary job_id
  let knwf_file_path ← api.generate_backup job_id
  let paths ← api.extract_paths knwf_file_path
  let ai ← AuditInfo.init job_id info.owner host info.state now
    (last_node_message info) paths (path_split_head knwf_file_path)
  let xml ← ai.as_xml
  deliver xml

/-- The `except Exception` handler of `main` (lines 259-263): on success
the queue is untouched and the loop proceeds at once; on any exception
the job id is put back at the tail and the loop sleeps 10 seconds. -/
def main_loop_body (api : JobApi) (deliver : String → Except PyError Unit)
    (host now : String) (q : List String) (job_id : String) :
    List String × Nat :=
  match per_job api deliver host now job_id with
  | .ok _ => (q, 0)
  | .error _ => (q ++ [job_id], 10)

/-! ### Concrete inputs used by counterexamples and witnesses -/

/-- A settings document referencing two dataset paths. -/
def two_path_settings : List String :=
  ["<entry key=\"path\" type=\"xstring\" value=\"data/a.csv\"/>",
   "<entry key=\"path\" type=\"xstring\" value=\"data/b.csv\"/>"]

/-- A settings document referencing one dataset path. -/
def one_path_settings : List String :=
  ["<entry key=\"path\" type=\"xstring\" value=\"data/a.csv\"/>"]

/-- A single walked directory whose settings document holds two paths. -/
def c1x_dirs : List WalkDir := [⟨[("settings.xml", two_path_settings)]⟩]

/-- Two walked directories: one path in the first, nothing in the second. -/
def c1w_dirs : List WalkDir := [⟨[("settings.xml", one_path_settings)]⟩, ⟨[]⟩]

/-- A well-formed completion line: the job id token is 8th from last. -/
def c3_wf_line : List Char :=
  "finished (job-7) a b c d e f EXECUTION_FINISHED".data

/-- A log line with no completion marker. -/
def c3_noise_line : List Char := "2024-01-01 INFO something else".data

/-- Bytes already consumed by an earlier pass of the tailer. -/
def c3_pre : List Char := "old content\n".data

/-- A processor-loop environment whose metadata fetch fails. -/
def c4_api : JobApi where
  get_job_info := fun _ => .error (.apiError "connection refused")
  get_workflow_summary := fun _ => .ok ()
  generate_backup := fun _ =>
    .ok "/backups/20240101/job-42-20240101000000/job-42.knwf"
  extract_paths := fun _ => .ok ["data/input.csv"]

/-- A delivery oracle that always succeeds. -/
def c4_deliver : String → Except PyError Unit := fun _ => .ok ()

/-- A line that contains a completion marker but fewer than 8 whitespace
tokens, as content of a log file. -/
def c6_bad_content : List Char := "EXECUTION_FINISHED\n".data

/-- Yesterday's log file name. -/
def c5_old_name : String := "localhost.2024-01-01.log"

/-- The new day's log file name. -/
def c5_new_name : String := "localhost.2024-01-02.log"

/-- A completion line sitting in the old day's file. -/
def c5_old_content : List Char :=
  "finished (job-9) a b c d e f EXECUTION_FINISHED\n".data

/-- A completion line sitting in the new day's file. -/
def c5_new_content : List Char :=
  "started (job-10) a b c d e f EXECUTION_FINISHED\n".data

/-- File system during a rollover: both days' files exist. -/
def c5_fs : String → Option (List Char) := fun n =>
  if n = c5_old_name then some c5_old_content
  else if n = c5_new_name then some c5_new_content
  else none

/-- File system whose only log file holds the malformed marker line. -/
def c6_fs : String → Option (List Char) := fun n =>
  if n = c5_old_name then some c6_bad_content else none

/-- File system where the new day's file never appears. -/
def c5_fs_nonew : String → Option (List Char) := fun n =>
  if n = c5_old_name then some c5_old_content else none

/-- All file names reachable by unpacking an archive. -/
def archive_file_names (a : KnwfArchive) : List String :=
  ((a.walked ++ a.outside).map (fun d => d.files.map Prod.fst)).flatten

/-- An archive holding a file outside the walked workflow subtree (for
example at the top level of the zip, next to the workflow folder). -/
def c7x_archive : KnwfArchive :=
  { walked := [], outside := [⟨[("stray.txt", [])]⟩] }

/-- An archive whose walked subtree holds a settings document and an
execution artifact. -/
def c7w_archive : KnwfArchive :=
  { walked := [⟨[("settings.xml", one_path_settings), ("data.bin", [])]⟩],
    outside := [] }

/-- Digit bounds under which `strftime`'s fixed-width rendering is
faithful: four year digits and two digits per remaining field. -/
def DTBounds (t : DT) : Prop :=
  t.year < 10000 ∧ t.month < 100 ∧ t.day < 100 ∧ t.hour < 100 ∧
    t.minute < 100 ∧ t.second < 100

/-- Processing timestamp used by the backup witness. -/
def c9_t : DT := ⟨2024, 1, 1, 0, 0, 0⟩

/-- A backup root holding no daily folder yet. -/
def c9_fs : FS := ⟨["/backups"], []⟩

/-- A backup root where the per-job directory already exists. -/
def c9_fs_clash : FS :=
  ⟨["/backups", "/backups/20240101", "/backups/20240101/job-7-20240101000000"], []⟩

/-- Job metadata for the backup witness. -/
def c9_ji : JobInfo := ⟨"alice", "EXECUTED", "wf/MyFlow", []⟩

/-- A download oracle that always succeeds. -/
def c9_download : String → Except PyError Unit := fun _ => .ok ()

/-- A processor-loop environment whose archive rewrite extracts zero
paths. -/
def c10_api : JobApi where
  get_job_info := fun _ => .ok ⟨"alice", "EXECUTED", "wf/MyFlow", []⟩
  get_workflow_summary := fun _ => .ok ()
  generate_backup := fun _ =>
    .ok "/backups/20240101/job-7-20240101000000/job-7.knwf"
  extract_paths := fun _ => .ok []

/-! ### Specification predicates -/

/-- The corrected path-cap behaviour of `extract_knwf_info`'s scan: the cap
is tested per directory before that directory's whole batch is appended,
so (i) when the total is below the cap everything is collected and no
sentinel appears, (ii) the sentinel appears at most once, (iii) the
non-sentinel entries are the concatenated batches of an initial segment
of the walked directories, and (iv) the sentinel appears exactly when
some directory is walked after the accumulated count has already reached
the cap. -/
def PathCapSpec (max_paths : Nat) (files_to_keep : List String)
    (dirs : List WalkDir) : Prop :=
  (((dirs.map (dir_batch files_to_keep)).flatten).length < max_paths →
    (process_dirs max_paths files_to_keep dirs []).2 =
      (dirs.map (dir_batch files_to_keep)).flatten) ∧
  ((process_dirs max_paths files_to_keep dirs []).2).count "..." ≤ 1 ∧
  (∃ n, ((process_dirs max_paths files_to_keep dirs []).2).filter
      (fun p => p ≠ "...") =
      (((dirs.map (dir_batch files_to_keep)).take n)).flatten) ∧
  ("..." ∈ (process_dirs max_paths files_to_keep dirs []).2 ↔
    ∃ i, i < dirs.length ∧
      max_paths ≤ (((dirs.map (dir_batch files_to_keep)).take i).flatten).length)

/-- The byte content of a sequence of newline-terminated log lines. -/
def linesJoin (lines : List (List Char)) : List Char :=
  (lines.map (fun l => l ++ ['\n'])).flatten

/-- A well-formed completion line carrying job identifier `id`: it contains
a completion marker, its 8th-from-last whitespace token is `(id)`, and the
identifier itself is non-empty and parenthesis-free. -/
def WFLine (l : List Char) (id : String) : Prop :=
  (pyContains ⟨stripChars l⟩ "EXECUTION_FAILED" ||
    pyContains ⟨stripChars l⟩ "EXECUTION_FINISHED") = true ∧
  ∃ pre post, pySplit ⟨stripChars l⟩ = pre ++ ("(" ++ id ++ ")") :: post ∧
    post.length = 7 ∧ id ≠ "" ∧ ∀ c ∈ id.data, c ≠ '(' ∧ c ≠ ')'

/-- A line with no completion marker. -/
def NonMatchingLine (l : List Char) : Prop :=
  (pyContains ⟨stripChars l⟩ "EXECUTION_FAILED" ||
    pyContains ⟨stripChars l⟩ "EXECUTION_FINISHED") = false

/-- A log fragment: each line is either a well-formed completion line
(contributing its identifier, in order) or a non-matching line
(contributing nothing). -/
inductive LinesSpec : List (List Char) → List String → Prop where
  | nil : LinesSpec [] []
  | wf {l : List Char} {id : String} {ls : List (List Char)} {ids : List String} :
      WFLine l id → LinesSpec ls ids → LinesSpec (l :: ls) (id :: ids)
  | non {l : List Char} {ls : List (List Char)} {ids : List String} :
      NonMatchingLine l → LinesSpec ls ids → LinesSpec (l :: ls) ids

/-! ## Lemmas -/

theorem process_dirs_snd_cons (m : Nat) (k : List String) (d : WalkDir)
    (ds : List WalkDir) (acc : List String) :
    (process_dirs m k (d :: ds) acc).2 =
      (process_dirs m k ds
        (if acc.length < m then acc ++ dir_batch k d
         else if "..." ∈ acc then acc else acc ++ ["..."])).2 := by
  simp only [process_dirs]

theorem process_dirs_snd_stuck (m : Nat) (k : List String) (ds : List WalkDir)
    (acc : List String) (hm : m ≤ acc.length) (hin : "..." ∈ acc) :
    (process_dirs m k ds acc).2 = acc := by
  induction ds with
  | nil => rfl
  | cons d ds ih =>
    rw [process_dirs_snd_cons, if_neg (by omega), if_pos hin]
    exact ih

theorem process_dirs_snd_sentinel (m : Nat) (k : List String) (d : WalkDir)
    (ds : List WalkDir) (acc : List String) (hm : m ≤ acc.length)
    (hnin : "..." ∉ acc) :
    (process_dirs m k (d :: ds) acc).2 = acc ++ ["..."] := by
  rw [process_dirs_snd_cons, if_neg (by omega), if_neg hnin]
  exact process_dirs_snd_stuck m k ds (acc ++ ["..."]) (by simp; omega) (by simp)

theorem process_dirs_snd_all (m : Nat) (k : List String) (ds : List WalkDir)
    (acc : List String)
    (h : acc.length + ((ds.map (dir_batch k)).flatten).length < m) :
    (process_dirs m k ds acc).2 = acc ++ (ds.map (dir_batch k)).flatten := by
  induction ds generalizing acc with
  | nil => simp [process_dirs]
  | cons d ds ih =>
    simp only [List.map_cons, List.flatten_cons, List.length_append] at h
    rw [process_dirs_snd_cons, if_pos (by omega)]
    rw [ih (acc ++ dir_batch k d) (by rw [List.length_append]; omega)]
    simp

theorem process_dirs_snd_count (m : Nat) (k : List String) (ds : List WalkDir)
    (acc : List String) (hb : "..." ∉ (ds.map (dir_batch k)).flatten)
    (ha : acc.count "..." ≤ 1) :
    ((process_dirs m k ds acc).2).count "..." ≤ 1 := by
  induction ds generalizing acc with
  | nil => simpa [process_dirs] using ha
  | cons d ds ih =>
    simp only [List.map_cons, List.flatten_cons, List.mem_append, not_or] at hb
    rw [process_dirs_snd_cons]
    by_cases h1 : acc.length < m
    · rw [if_pos h1]
      exact ih _ hb.2 (by
        rw [List.count_append, List.count_eq_zero.mpr hb.1]
        omega)
    · rw [if_neg h1]
      by_cases h2 : "..." ∈ acc
      · rw [if_pos h2]
        exact ih _ hb.2 ha
      · rw [if_neg h2]
        exact ih _ hb.2 (by
          rw [List.count_append, List.count_eq_zero.mpr h2]
          simp)

theorem process_dirs_snd_segment (m : Nat) (k : List String)
    (ds : List WalkDir) (acc : List String)
    (hb : "..." ∉ (ds.map (dir_batch k)).flatten) :
    ∃ n, ((process_dirs m k ds acc).2).filter (fun p => p ≠ "...") =
      acc.filter (fun p => p ≠ "...") ++
        ((ds.map (dir_batch k)).take n).flatten := by
  induction ds generalizing acc with
  | nil => exact ⟨0, by simp [process_dirs]⟩
  | cons d ds ih =>
    simp only [List.map_cons, List.flatten_cons, List.mem_append, not_or] at hb
    rw [process_dirs_snd_cons]
    by_cases h1 : acc.length < m
    · rw [if_pos h1]
      obtain ⟨n, hn⟩ := ih (acc ++ dir_batch k d) hb.2
      refine ⟨n + 1, ?_⟩
      rw [hn, List.filter_append]
      have hbatch : (dir_batch k d).filter (fun p => p ≠ "...") = dir_batch k d := by
        refine List.filter_eq_self.mpr ?_
        intro a hma
        simp only [decide_eq_true_eq]
        intro hcontra
        exact hb.1 (hcontra ▸ hma)
      rw [hbatch, List.map_cons, List.take_succ_cons, List.flatten_cons,
        List.append_assoc]
    · rw [if_neg h1]
      by_cases h2 : "..." ∈ acc
      · rw [if_pos h2, process_dirs_snd_stuck m k ds acc (by omega) h2]
        exact ⟨0, by simp⟩
      · cases ds with
        | nil =>
          refine ⟨0, ?_⟩
          rw [if_neg h2]
          simp [process_dirs, List.filter_append, List.filter]
        | cons d2 ds2 =>
          rw [if_neg h2,
            process_dirs_snd_stuck m k (d2 :: ds2) (acc ++ ["..."])
              (by simp; omega) (by simp)]
          refine ⟨0, ?_⟩
          simp [List.filter_append, List.filter]

theorem process_dirs_snd_sentinel_iff (m : Nat) (k : List String)
    (ds : List WalkDir) (acc : List String)
    (hb : "..." ∉ (ds.map (dir_batch k)).flatten) (ha : "..." ∉ acc) :
    ("..." ∈ (process_dirs m k ds acc).2 ↔
      ∃ i, i < ds.length ∧
        m ≤ acc.length + (((ds.map (dir_batch k)).take i).flatten).length) := by
  induction ds generalizing acc with
  | nil =>
    simp only [process_dirs, List.length_nil]
    constructor
    · intro h
      exact absurd h ha
    · rintro ⟨i, hi, _⟩
      omega
  | cons d ds ih =>
    simp only [List.map_cons, List.flatten_cons, List.mem_append, not_or] at hb
    rw [process_dirs_snd_cons]
    by_cases h1 : acc.length < m
    · rw [if_pos h1]
      rw [ih (acc ++ dir_batch k d) hb.2 (by
        simp only [List.mem_append, not_or]
        exact ⟨ha, hb.1⟩)]
      constructor
      · rintro ⟨i, hi, hlen⟩
        refine ⟨i + 1, by simpa using hi, ?_⟩
        rw [List.map_cons, List.take_succ_cons, List.flatten_cons]
        simp only [List.length_append] at hlen ⊢
        omega
      · rintro ⟨i, hi, hlen⟩
        cases i with
        | zero =>
          simp only [List.take_zero, List.flatten_nil, List.length_nil] at hlen
          omega
        | succ j =>
          refine ⟨j, by simpa using hi, ?_⟩
          rw [List.map_cons, List.take_succ_cons, List.flatten_cons] at hlen
          simp only [List.length_append] at hlen ⊢
          omega
    · rw [if_neg h1, if_neg ha,
        process_dirs_snd_stuck m k ds (acc ++ ["..."]) (by simp; omega) (by simp)]
      constructor
      · intro _
        exact ⟨0, by simp, by simpa using h1⟩
      · intro _
        simp

theorem replaceAux_single_filter (c : Char) (hay : List Char) (n : Nat)
    (hn : hay.length ≤ n) :
    replaceAux n [c] [] hay = hay.filter (fun x => decide (x ≠ c)) := by
  induction hay generalizing n with
  | nil => cases n <;> rfl
  | cons a rest ih =>
    cases n with
    | zero => simp at hn
    | succ m =>
      by_cases hca : c = a
      · subst hca
        rw [replaceAux, if_pos ⟨by simp, by simp [List.isPrefixOf]⟩]
        simp only [List.length_cons] at hn
        simpa using ih m (by omega)
      · rw [replaceAux, if_neg (by simp [List.isPrefixOf, hca])]
        simp only [List.length_cons] at hn
        have hac : ¬ (a = c) := fun hh => hca hh.symm
        simpa [hac] using ih m (by omega)

theorem pyReplace_filter (s pat : String) (c : Char) (hpat : pat.data = [c]) :
    pyReplace s pat "" = ⟨s.data.filter (fun x => decide (x ≠ c))⟩ := by
  unfold pyReplace
  rw [hpat]
  exact congrArg String.mk
    (replaceAux_single_filter c s.data s.data.length (le_refl _))

theorem getD_eighth_last (pre : List String) (tok : String) (post : List String)
    (hpost : post.length = 7) :
    (pre ++ tok :: post).getD ((pre ++ tok :: post).length - 8) "" = tok := by
  induction pre with
  | nil => simp [List.getD, hpost]
  | cons a pre ih =>
    have h1 : 8 ≤ (pre ++ tok :: post).length := by simp [hpost]
    have h2 : (a :: (pre ++ tok :: post)).length - 8 =
        ((pre ++ tok :: post).length - 8) + 1 := by
      simp only [List.length_cons]
      omega
    rw [List.cons_append, h2, List.getD_cons_succ]
    exact ih

theorem extract_job_id_wf (l : List Char) (id : String) (h : WFLine l id) :
    extract_job_id ⟨stripChars l⟩ = .ok id := by
  obtain ⟨hm, pre, post, hsplit, hpost, hid, hpar⟩ := h
  have hdata : ("(" ++ id ++ ")").data = '(' :: (id.data ++ [')']) := by
    rw [String.data_append, String.data_append]
    rfl
  have hrep1 : pyReplace ("(" ++ id ++ ")") "(" "" = ⟨id.data ++ [')']⟩ := by
    rw [pyReplace_filter _ _ '(' rfl, hdata]
    congr 1
    rw [List.filter_cons_of_neg (by simp), List.filter_append]
    rw [List.filter_eq_self.mpr (fun a ha => by simpa using (hpar a ha).1)]
    simp
  have hrep2 : pyReplace ⟨id.data ++ [')']⟩ ")" "" = id := by
    rw [pyReplace_filter _ _ ')' rfl]
    have : (⟨id.data ++ [')']⟩ : String).data = id.data ++ [')'] := rfl
    rw [this, List.filter_append]
    rw [List.filter_eq_self.mpr (fun a ha => by simpa using (hpar a ha).2)]
    simp
  simp only [extract_job_id]
  rw [if_pos hm, hsplit, if_pos (by simp [hpost]), getD_eighth_last pre _ post hpost,
    hrep1, hrep2]

theorem extract_job_id_non (l : List Char) (h : NonMatchingLine l) :
    extract_job_id ⟨stripChars l⟩ = .ok "" := by
  simp only [extract_job_id]
  rw [if_neg (by rw [NonMatchingLine] at h; simp [h])]

theorem stripChars_append_newline (l : List Char) :
    stripChars (l ++ ['\n']) = stripChars l := by
  unfold stripChars
  rw [List.dropWhile_append]
  by_cases h : (l.dropWhile Char.isWhitespace).isEmpty
  · rw [if_pos h]
    rw [List.isEmpty_iff] at h
    rw [h]
    rfl
  · rw [if_neg h]
    rw [List.reverse_append]
    have : (['\n'] : List Char).reverse = ['\n'] := rfl
    rw [this, List.singleton_append, List.dropWhile_cons_of_pos (by decide)]

theorem splitLinesAux_newline (l : List Char) (h : '\n' ∉ l) (rest acc : List Char) :
    splitLinesAux acc (l ++ '\n' :: rest) =
      ((acc.reverse ++ l) ++ ['\n']) :: splitLinesAux [] rest := by
  induction l generalizing acc with
  | nil => simp [splitLinesAux]
  | cons c l ih =>
    have hc : ¬ (c = '\n') := fun hh => h (hh ▸ List.mem_cons_self c l)
    rw [List.cons_append, splitLinesAux, if_neg hc,
      ih (fun hm => h (List.mem_cons_of_mem c hm)) (c :: acc)]
    simp

theorem splitLines_linesJoin (lines : List (List Char))
    (h : ∀ l ∈ lines, '\n' ∉ l) :
    splitLines (linesJoin lines) = lines.map (fun l => l ++ ['\n']) := by
  induction lines with
  | nil => rfl
  | cons l ls ih =>
    unfold splitLines linesJoin
    simp only [List.map_cons, List.flatten_cons, List.append_assoc,
      List.singleton_append]
    rw [splitLinesAux_newline l (h l (List.mem_cons_self l ls)) _ []]
    simp only [List.reverse_nil, List.nil_append]
    have := ih (fun x hx => h x (List.mem_cons_of_mem l hx))
    unfold splitLines linesJoin at this
    rw [this]

theorem emit_lines_spec {lines : List (List Char)} {ids : List String}
    (h : LinesSpec lines ids) :
    emit_lines (lines.map (fun l => l ++ ['\n'])) = .ok ids := by
  induction h with
  | nil => rfl
  | @wf l id ls ids0 hwf _ ih =>
    have hstrip : pyStrip ⟨l ++ ['\n']⟩ = ⟨stripChars l⟩ :=
      congrArg String.mk (stripChars_append_newline l)
    simp only [List.map_cons, emit_lines]
    rw [hstrip, extract_job_id_wf l id hwf, ih]
    have hid : id ≠ "" := hwf.2.choose_spec.choose_spec.2.2.1
    simp [hid]
  | @non l ls ids0 hnon _ ih =>
    have hstrip : pyStrip ⟨l ++ ['\n']⟩ = ⟨stripChars l⟩ :=
      congrArg String.mk (stripChars_append_newline l)
    simp only [List.map_cons, emit_lines]
    rw [hstrip, extract_job_id_non l hnon, ih]
    simp

theorem tailer_select_first_obs (log_delay : Nat) (st : TailState)
    (today : String) (b : Bool) (now : Nat)
    (hne : st.previous_filename ≠ today) (hb : b = true)
    (hcd : st.current_delay = none) :
    tailer_select log_delay st today b now =
      (st.previous_filename, st.file_position, some now) := by
  unfold tailer_select
  rw [if_pos hne, hb, hcd]
  rfl

theorem tailer_select_waiting (log_delay : Nat) (st : TailState)
    (today : String) (b : Bool) (now t0 : Nat)
    (hne : st.previous_filename ≠ today) (hb : b = true)
    (hcd : st.current_delay = some t0) (hw : now - t0 ≤ log_delay) :
    tailer_select log_delay st today b now =
      (st.previous_filename, st.file_position, some t0) := by
  unfold tailer_select
  rw [if_pos hne, hb, hcd]
  show (if now - t0 > log_delay then _ else _) = _
  rw [if_neg (by omega)]

theorem tailer_select_switch (log_delay : Nat) (st : TailState)
    (today : String) (b : Bool) (now t0 : Nat)
    (hne : st.previous_filename ≠ today) (hb : b = true)
    (hcd : st.current_delay = some t0) (hw : now - t0 > log_delay) :
    tailer_select log_delay st today b now = (today, 0, none) := by
  unfold tailer_select
  rw [if_pos hne, hb, hcd]
  show (if now - t0 > log_delay then _ else _) = _
  rw [if_pos hw]

theorem tailer_step_reads (log_delay : Nat) (st : TailState) (today : String)
    (fs : String → Option (List Char)) (now : Nat) (fn : String) (pos : Nat)
    (cd : Option Nat) (content : List Char) (ids : List String) (p : Nat)
    (hsel : tailer_select log_delay st today (fs today).isSome now = (fn, pos, cd))
    (hc : fs fn = some content) (hr : run_pass content pos = .ok (ids, p)) :
    tailer_step log_delay st today fs now = (.go ids p, ⟨fn, p, cd⟩) := by
  simp only [tailer_step, hsel, hc, hr]

theorem tailer_step_no_new (log_delay : Nat) (st : TailState) (today : String)
    (fs : String → Option (List Char)) (now : Nat)
    (hne : st.previous_filename ≠ today) (hnone : fs today = none) :
    ((tailer_step log_delay st today fs now).2).previous_filename =
      st.previous_filename := by
  have hsel : tailer_select log_delay st today (fs today).isSome now =
      (st.previous_filename, st.file_position, st.current_delay) := by
    unfold tailer_select
    rw [if_pos hne, hnone]
    rfl
  simp only [tailer_step, hsel]
  cases h : fs st.previous_filename with
  | none => simp
  | some content =>
    cases hr : run_pass content st.file_position with
    | ok v =>
      obtain ⟨ids, p⟩ := v
      simp [hr]
    | error e => simp [hr]

theorem tailer_iterate_no_new (log_delay : Nat) (today : String)
    (fs : String → Option (List Char)) (hnone : fs today = none) :
    ∀ (n : Nat) (st : TailState) (now : Nat),
      st.previous_filename ≠ today →
      (tailer_iterate log_delay today fs n st now).previous_filename =
        st.previous_filename := by
  intro n
  induction n with
  | zero => intro st now _; rfl
  | succ m ih =>
    intro st now hne
    have hstep := tailer_step_no_new log_delay st today fs now hne hnone
    unfold tailer_iterate
    rw [ih (tailer_step log_delay st today fs now).2 (now + 1)
      (by rw [hstep]; exact hne), hstep]

theorem process_dirs_fst (m : Nat) (k : List String) (ds : List WalkDir)
    (acc : List String) :
    (process_dirs m k ds acc).1 =
      ds.map (fun d => ⟨d.files.filter (fun f => f.1 ∈ k)⟩) := by
  induction ds generalizing acc with
  | nil => rfl
  | cons d ds ih =>
    simp only [process_dirs, List.map_cons]
    rw [ih]

theorem dChar_toNat (d : Nat) : (dChar d).toNat = 48 + d % 10 := by
  unfold dChar
  have h : d % 10 < 10 := Nat.mod_lt _ (by omega)
  generalize d % 10 = m at *
  interval_cases m <;> rfl

theorem dChar_inj {a b : Nat} (h : dChar a = dChar b) : a % 10 = b % 10 := by
  have hh := congrArg Char.toNat h
  rw [dChar_toNat, dChar_toNat] at hh
  omega

theorem fmt_datetime_data (t : DT) :
    (fmt_datetime t).data =
      [dChar (t.year / 1000), dChar (t.year / 100), dChar (t.year / 10),
       dChar t.year, dChar (t.month / 10), dChar t.month,
       dChar (t.day / 10), dChar t.day, dChar (t.hour / 10), dChar t.hour,
       dChar (t.minute / 10), dChar t.minute, dChar (t.second / 10),
       dChar t.second] := by
  unfold fmt_datetime pad4 pad2
  repeat rw [String.data_append]
  rfl

theorem fmt_datetime_length (t : DT) : (fmt_datetime t).data.length = 14 := by
  rw [fmt_datetime_data]
  rfl

theorem fmt_datetime_inj (t1 t2 : DT) (hb1 : DTBounds t1) (hb2 : DTBounds t2)
    (h : fmt_datetime t1 = fmt_datetime t2) : t1 = t2 := by
  rcases t1 with ⟨y1, M1, D1, H1, m1, s1⟩
  rcases t2 with ⟨y2, M2, D2, H2, m2, s2⟩
  have hby1 : y1 < 10000 := hb1.1
  have hbM1 : M1 < 100 := hb1.2.1
  have hbD1 : D1 < 100 := hb1.2.2.1
  have hbH1 : H1 < 100 := hb1.2.2.2.1
  have hbm1 : m1 < 100 := hb1.2.2.2.2.1
  have hbs1 : s1 < 100 := hb1.2.2.2.2.2
  have hby2 : y2 < 10000 := hb2.1
  have hbM2 : M2 < 100 := hb2.2.1
  have hbD2 : D2 < 100 := hb2.2.2.1
  have hbH2 : H2 < 100 := hb2.2.2.2.1
  have hbm2 : m2 < 100 := hb2.2.2.2.2.1
  have hbs2 : s2 < 100 := hb2.2.2.2.2.2
  have hd := congrArg String.data h
  rw [fmt_datetime_data, fmt_datetime_data] at hd
  simp only [List.cons.injEq, and_true] at hd
  obtain ⟨c1, c2, c3, c4, c5, c6, c7, c8, c9, c10, c11, c12, c13, c14⟩ := hd
  have g1 := dChar_inj c1
  have g2 := dChar_inj c2
  have g3 := dChar_inj c3
  have g4 := dChar_inj c4
  have g5 := dChar_inj c5
  have g6 := dChar_inj c6
  have g7 := dChar_inj c7
  have g8 := dChar_inj c8
  have g9 := dChar_inj c9
  have g10 := dChar_inj c10
  have g11 := dChar_inj c11
  have g12 := dChar_inj c12
  have g13 := dChar_inj c13
  have g14 := dChar_inj c14
  simp only [DT.mk.injEq]
  refine ⟨?_, ?_, ?_, ?_, ?_, ?_⟩ <;> omega

theorem job_dir_name_inj (j1 j2 : String) (t1 t2 : DT)
    (hb1 : DTBounds t1) (hb2 : DTBounds t2)
    (h : job_dir_name j1 t1 = job_dir_name j2 t2) : j1 = j2 ∧ t1 = t2 := by
  unfold job_dir_name at h
  have hd := congrArg String.data h
  rw [String.data_append, String.data_append, String.data_append,
    String.data_append] at hd
  have hlen : (fmt_datetime t1).data.length = (fmt_datetime t2).data.length := by
    rw [fmt_datetime_length, fmt_datetime_length]
  obtain ⟨hp, hs⟩ := List.append_inj' hd hlen
  obtain ⟨hj, _⟩ := List.append_inj' hp rfl
  exact ⟨congrArg String.mk hj,
    fmt_datetime_inj t1 t2 hb1 hb2 (congrArg String.mk hs)⟩

theorem pathJoin_length (a b : String) :
    (pathJoin a b).length = a.length + 1 + b.length := by
  unfold pathJoin
  rw [String.length_append, String.length_append,
    show ("/").length = 1 from rfl]

/-! ## Claim theorems -/

/-- C1 (counterexample): with `max_paths = 1` and a single walked directory
whose settings document references `K = 2` dataset paths, `extract_knwf_info`'s
scan returns both paths and no `"..."` sentinel, whereas the claim demands
exactly `max` = 1 entries followed by a single sentinel whenever `K > max`. -/
theorem C1_counterexample :
    ((c1x_dirs.map (dir_batch ["settings.xml"])).flatten).length = 2 ∧
    1 < ((c1x_dirs.map (dir_batch ["settings.xml"])).flatten).length ∧
    (process_dirs 1 ["settings.xml"] c1x_dirs []).2 = ["data/a.csv", "data/b.csv"] ∧
    (process_dirs 1 ["settings.xml"] c1x_dirs []).2 ≠
      ((c1x_dirs.map (dir_batch ["settings.xml"])).flatten).take 1 ++ ["..."] ∧
    "..." ∉ (process_dirs 1 ["settings.xml"] c1x_dirs []).2 := by
  decide

/-- C1 (amended): the cap is tested per directory before appending that
directory's whole batch of paths, so the result can exceed `max_paths`;
when the total path count is strictly below the cap the result is exactly
all paths with no sentinel; the sentinel appears at most once, the
non-sentinel entries are the batches of an initial segment of the walk,
and the sentinel appears iff some directory is walked after the
accumulated count has already reached the cap (so it can appear when
`K = max` and can be absent when `K > max`). -/
theorem C1_path_cap_amended (max_paths : Nat) (files_to_keep : List String)
    (dirs : List WalkDir)
    (hs : "..." ∉ (dirs.map (dir_batch files_to_keep)).flatten) :
    PathCapSpec max_paths files_to_keep dirs := by
  refine ⟨?_, ?_, ?_, ?_⟩
  · intro h
    simpa using process_dirs_snd_all max_paths files_to_keep dirs [] (by simpa using h)
  · exact process_dirs_snd_count max_paths files_to_keep dirs [] hs (by simp)
  · simpa using process_dirs_snd_segment max_paths files_to_keep dirs [] hs
  · simpa using process_dirs_snd_sentinel_iff max_paths files_to_keep dirs [] hs (by simp)

/-- C1 (witness): the amended theorem applied to a two-directory walk with
one path and `max_paths = 1`. -/
theorem C1_path_cap_amended_witness :
    ("..." ∉ (c1w_dirs.map (dir_batch ["settings.xml"])).flatten) ∧
    PathCapSpec 1 ["settings.xml"] c1w_dirs :=
  ⟨by decide, C1_path_cap_amended 1 ["settings.xml"] c1w_dirs (by decide)⟩

/-- C2: the claim says every `AuditInfo` construction succeeds with all
free-text fields (including each path) escaped; in the source the paths
branch reads the unbound name `a`
(`self.paths = [self.escape_field(e) for e in a]`), so constructing the
payload of the spec's own end-to-end scenario — a job with one extracted
path — raises `NameError` instead of succeeding.  The claim matches the
evident intent (`a` is a slip for `paths`); the code is wrong. -/
theorem C2_constructor_name_error :
    AuditInfo.init "job-7" "alice" "knime-host" "EXECUTED"
      "2024-01-01T00:00:00+00:00" "" ["data/input.csv"]
      "/backups/20240101/job-7-20240101000000" = .error (.nameError "a") ∧
    (∀ paths : List String, paths ≠ [] →
      AuditInfo.init "job-7" "alice" "knime-host" "EXECUTED"
        "2024-01-01T00:00:00+00:00" "" paths
        "/backups/20240101/job-7-20240101000000" = .error (.nameError "a")) := by
  constructor
  · rfl
  · intro paths hp
    simp only [AuditInfo.init]
    rw [if_neg (by simpa using hp)]

/-- C3: a single continuous read starting at the stored byte offset over a
log whose unread region consists of well-formed completion lines (with
pairwise-distinct identifiers) and non-matching lines emits exactly the
identifiers of the completion lines, in file order, none duplicated; the
stored offset afterwards equals end of file, and a further read from that
stored offset emits nothing. -/
theorem C3_tailer_single_pass (pre : List Char) (lines : List (List Char))
    (ids : List String) (hnl : ∀ l ∈ lines, '\n' ∉ l)
    (hspec : LinesSpec lines ids) (hnodup : ids.Nodup) :
    run_pass (pre ++ linesJoin lines) pre.length =
      .ok (ids, (pre ++ linesJoin lines).length) ∧
    run_pass (pre ++ linesJoin lines) (pre ++ linesJoin lines).length =
      .ok ([], (pre ++ linesJoin lines).length) ∧
    ids.Nodup := by
  refine ⟨?_, ?_, hnodup⟩
  · unfold run_pass
    rw [List.drop_left, splitLines_linesJoin lines hnl, emit_lines_spec hspec]
  · unfold run_pass
    rw [List.drop_length]
    rfl

/-- C3 (witness): one completion line for `job-7` interleaved with one
noise line, read after a one-line prefix already consumed. -/
theorem C3_tailer_single_pass_witness :
    (∀ l ∈ [c3_wf_line, c3_noise_line], '\n' ∉ l) ∧
    LinesSpec [c3_wf_line, c3_noise_line] ["job-7"] ∧
    (["job-7"] : List String).Nodup ∧
    run_pass (c3_pre ++ linesJoin [c3_wf_line, c3_noise_line]) c3_pre.length =
      .ok (["job-7"], (c3_pre ++ linesJoin [c3_wf_line, c3_noise_line]).length) := by
  have hnl : ∀ l ∈ [c3_wf_line, c3_noise_line], '\n' ∉ l := by decide
  have hwf : WFLine c3_wf_line "job-7" :=
    ⟨by decide,
     ["finished"], ["a", "b", "c", "d", "e", "f", "EXECUTION_FINISHED"],
     by decide, by decide, by decide, by decide⟩
  have hspec : LinesSpec [c3_wf_line, c3_noise_line] ["job-7"] :=
    .wf hwf (.non (by unfold NonMatchingLine; decide) .nil)
  exact ⟨hnl, hspec, by decide,
    (C3_tailer_single_pass c3_pre _ _ hnl hspec (by decide)).1⟩

/-- C4: whenever any stage of the per-job procedure raises, the handler
puts the same job identifier back exactly once at the current tail of the
queue and sleeps the fixed 10-second delay; on success the queue is
untouched and there is no delay; and an exception in the metadata fetch,
the summary fetch, the backup, or the archive rewrite does propagate to
the handler (no identifier is dropped). -/
theorem C4_requeue_on_failure (api : JobApi)
    (deliver : String → Except PyError Unit) (host now : String)
    (q : List String) (job_id : String) :
    ((∃ e, per_job api deliver host now job_id = .error e) →
      main_loop_body api deliver host now q job_id = (q ++ [job_id], 10) ∧
      (main_loop_body api deliver host now q job_id).1.count job_id =
        q.count job_id + 1 ∧
      job_id ∈ (main_loop_body api deliver host now q job_id).1) ∧
    (per_job api deliver host now job_id = .ok () →
      main_loop_body api deliver host now q job_id = (q, 0)) ∧
    (∀ e, api.get_job_info job_id = .error e →
      per_job api deliver host now job_id = .error e) ∧
    (∀ info e, api.get_job_info job_id = .ok info →
      api.get_workflow_summary job_id = .error e →
      per_job api deliver host now job_id = .error e) ∧
    (∀ info e, api.get_job_info job_id = .ok info →
      api.get_workflow_summary job_id = .ok () →
      api.generate_backup job_id = .error e →
      per_job api deliver host now job_id = .error e) ∧
    (∀ info knwf e, api.get_job_info job_id = .ok info →
      api.get_workflow_summary job_id = .ok () →
      api.generate_backup job_id = .ok knwf →
      api.extract_paths knwf = .error e →
      per_job api deliver host now job_id = .error e) := by
  refine ⟨?_, ?_, ?_, ?_, ?_, ?_⟩
  · rintro ⟨e, he⟩
    unfold main_loop_body
    rw [he]
    refine ⟨rfl, ?_, ?_⟩ <;> simp
  · intro h
    unfold main_loop_body
    rw [h]
  · intro e he
    unfold per_job
    rw [he]
    rfl
  · intro info e h1 h2
    unfold per_job
    rw [h1]
    show Except.bind (api.get_workflow_summary job_id) _ = _
    rw [h2]
    rfl
  · intro info e h1 h2 h3
    unfold per_job
    rw [h1]
    show Except.bind (api.get_workflow_summary job_id) _ = _
    rw [h2]
    show Except.bind (api.generate_backup job_id) _ = _
    rw [h3]
    rfl
  · intro info knwf e h1 h2 h3 h4
    unfold per_job
    rw [h1]
    show Except.bind (api.get_workflow_summary job_id) _ = _
    rw [h2]
    show Except.bind (api.generate_backup job_id) _ = _
    rw [h3]
    show Except.bind (api.extract_paths knwf) _ = _
    rw [h4]
    rfl

/-- C4 (witness): the metadata fetch for `"job-42"` fails, and `"job-42"`
reappears exactly once at the tail of the queue with the 10-second
pause. -/
theorem C4_requeue_on_failure_witness :
    per_job c4_api c4_deliver "knime-host" "2024-01-01T00:00:00+00:00"
      "job-42" = .error (.apiError "connection refused") ∧
    main_loop_body c4_api c4_deliver "knime-host" "2024-01-01T00:00:00+00:00"
      ["job-7"] "job-42" = (["job-7", "job-42"], 10) :=
  ⟨rfl,
   ((C4_requeue_on_failure c4_api c4_deliver "knime-host"
      "2024-01-01T00:00:00+00:00" ["job-7"] "job-42").1
      ⟨.apiError "connection refused", rfl⟩).1⟩

/-- C5: rollover grace behaviour of the tailer. With a rollover pending
(`previous_filename ≠ today`): (i) the first iteration that observes the
new file records the observation moment `now`, keeps reading the old file
from the stored offset (capturing lines appended to it) and reads nothing
from the new file; (ii) every iteration within `log_delay` seconds of the
recorded moment does the same, keeping the recorded moment; (iii) once
more than `log_delay` seconds have elapsed since the recorded moment —
not since midnight — the tailer switches to the new file with the offset
reset to zero; (iv) if the new file never appears the tailer stays on the
previous file for any number of iterations. -/
theorem C5_rollover_grace (log_delay : Nat) (st : TailState) (today : String)
    (fs : String → Option (List Char)) (now t0 : Nat)
    (hne : st.previous_filename ≠ today) :
    ((fs today).isSome = true → st.current_delay = none →
      ∀ oldContent ids p, fs st.previous_filename = some oldContent →
      run_pass oldContent st.file_position = .ok (ids, p) →
      tailer_step log_delay st today fs now =
        (.go ids p, ⟨st.previous_filename, p, some now⟩)) ∧
    ((fs today).isSome = true → st.current_delay = some t0 →
      now - t0 ≤ log_delay →
      ∀ oldContent ids p, fs st.previous_filename = some oldContent →
      run_pass oldContent st.file_position = .ok (ids, p) →
      tailer_step log_delay st today fs now =
        (.go ids p, ⟨st.previous_filename, p, some t0⟩)) ∧
    (st.current_delay = some t0 → now - t0 > log_delay →
      ∀ newContent ids p, fs today = some newContent →
      run_pass newContent 0 = .ok (ids, p) →
      tailer_step log_delay st today fs now = (.go ids p, ⟨today, p, none⟩)) ∧
    (fs today = none →
      ∀ n, (tailer_iterate log_delay today fs n st now).previous_filename =
        st.previous_filename) := by
  refine ⟨?_, ?_, ?_, ?_⟩
  · intro hex hcd oldContent ids p hold hrun
    exact tailer_step_reads log_delay st today fs now _ _ _ oldContent ids p
      (tailer_select_first_obs log_delay st today _ now hne hex hcd) hold hrun
  · intro hex hcd hw oldContent ids p hold hrun
    exact tailer_step_reads log_delay st today fs now _ _ _ oldContent ids p
      (tailer_select_waiting log_delay st today _ now t0 hne hex hcd hw) hold hrun
  · intro hcd hw newContent ids p hnew hrun
    exact tailer_step_reads log_delay st today fs now _ _ _ newContent ids p
      (tailer_select_switch log_delay st today _ now t0 hne
        (by rw [hnew]; rfl) hcd hw) hnew hrun
  · intro hnone n
    exact tailer_iterate_no_new log_delay today fs hnone n st now hne

/-- C5 (witness): with a 300-second grace, the step at the first
observation (second 1000) and at second 1200 still reads the old file's
completion line from the stored offset; at second 1301 it switches and
reads the new file from offset 0; and with the new file absent the tailer
is still on the old file after 5 iterations. -/
theorem C5_rollover_grace_witness :
    tailer_step 300 ⟨c5_old_name, 0, none⟩ c5_new_name c5_fs 1000 =
      (.go ["job-9"] c5_old_content.length,
        ⟨c5_old_name, c5_old_content.length, some 1000⟩) ∧
    tailer_step 300 ⟨c5_old_name, 0, some 1000⟩ c5_new_name c5_fs 1200 =
      (.go ["job-9"] c5_old_content.length,
        ⟨c5_old_name, c5_old_content.length, some 1000⟩) ∧
    tailer_step 300 ⟨c5_old_name, 0, some 1000⟩ c5_new_name c5_fs 1301 =
      (.go ["job-10"] c5_new_content.length,
        ⟨c5_new_name, c5_new_content.length, none⟩) ∧
    (tailer_iterate 300 c5_new_name c5_fs_nonew 5
      ⟨c5_old_name, 0, none⟩ 1000).previous_filename = c5_old_name := by
  refine ⟨?_, ?_, ?_, ?_⟩
  · exact (C5_rollover_grace 300 ⟨c5_old_name, 0, none⟩ c5_new_name c5_fs
      1000 0 (by decide)).1 rfl rfl c5_old_content ["job-9"]
      c5_old_content.length rfl rfl
  · exact (C5_rollover_grace 300 ⟨c5_old_name, 0, some 1000⟩ c5_new_name c5_fs
      1200 1000 (by decide)).2.1 rfl rfl (by omega) c5_old_content ["job-9"]
      c5_old_content.length rfl rfl
  · exact (C5_rollover_grace 300 ⟨c5_old_name, 0, some 1000⟩ c5_new_name c5_fs
      1301 1000 (by decide)).2.2.1 rfl (by omega) c5_new_content ["job-10"]
      c5_new_content.length rfl rfl
  · exact (C5_rollover_grace 300 ⟨c5_old_name, 0, none⟩ c5_new_name
      c5_fs_nonew 1000 0 (by decide)).2.2.2 rfl 5

/-- C6 (counterexample): the tailer's loop catches only `IOError`, so a
line containing a completion marker but fewer than 8 whitespace tokens
raises `IndexError` out of `run` and the thread terminates; likewise the
startup open (before the loop) is unprotected, so a missing log file at
startup is fatal — both contradict "never terminates on error". -/
theorem C6_counterexample :
    tailer_step 300 ⟨c5_old_name, 0, none⟩ c5_old_name c6_fs 0 =
      (.crashed .indexError, ⟨c5_old_name, 0, none⟩) ∧
    run_start (fun _ => none) c5_old_name = .error .ioError := by
  exact ⟨by decide, rfl⟩

/-- C6 (amended): a missing/unreadable file inside the loop is caught —
the iteration emits nothing, keeps its state, and the loop continues —
but a marker line with fewer than 8 whitespace-separated tokens makes
`extract_job_id` raise `IndexError`, which is not an `IOError` and
escapes the loop (the thread crashes); a missing file at startup, before
the loop, is likewise fatal. -/
theorem C6_error_handling_amended :
    (∀ (log_delay : Nat) (st : TailState) (today : String)
      (fs : String → Option (List Char)) (now : Nat) (fn : String)
      (pos : Nat) (cd : Option Nat),
      tailer_select log_delay st today (fs today).isSome now = (fn, pos, cd) →
      fs fn = none →
      tailer_step log_delay st today fs now = (.go [] pos, ⟨fn, pos, cd⟩)) ∧
    (∀ line : String,
      (pyContains line "EXECUTION_FAILED" ||
        pyContains line "EXECUTION_FINISHED") = true →
      (pySplit line).length < 8 →
      extract_job_id line = .error .indexError) ∧
    (∀ (log_delay : Nat) (st : TailState) (today : String)
      (fs : String → Option (List Char)) (now : Nat) (fn : String)
      (pos : Nat) (cd : Option Nat) (content : List Char) (e : PyError),
      tailer_select log_delay st today (fs today).isSome now = (fn, pos, cd) →
      fs fn = some content → run_pass content pos = .error e →
      tailer_step log_delay st today fs now = (.crashed e, st)) ∧
    (∀ (fs : String → Option (List Char)) (fn : String),
      fs fn = none → run_start fs fn = .error .ioError) := by
  refine ⟨?_, ?_, ?_, ?_⟩
  · intro log_delay st today fs now fn pos cd hsel hmiss
    simp only [tailer_step, hsel, hmiss]
  · intro line hm hlen
    simp only [extract_job_id]
    rw [if_pos hm, if_neg (by omega)]
  · intro log_delay st today fs now fn pos cd content e hsel hc hr
    simp only [tailer_step, hsel, hc, hr]
  · intro fs fn h
    unfold run_start
    rw [h]

/-- C6 (witness): the amended theorem applied to a file system with no
file at all (the iteration continues), to the short marker line
`"EXECUTION_FINISHED"` (`IndexError`), to the crashed iteration on that
line, and to the unprotected startup open. -/
theorem C6_error_handling_amended_witness :
    tailer_step 300 ⟨c5_old_name, 5, none⟩ c5_old_name
      (fun _ => none) 7 = (.go [] 5, ⟨c5_old_name, 5, none⟩) ∧
    extract_job_id "EXECUTION_FINISHED" = .error .indexError ∧
    tailer_step 300 ⟨c5_old_name, 0, none⟩ c5_old_name c6_fs 3 =
      (.crashed .indexError, ⟨c5_old_name, 0, none⟩) ∧
    run_start (fun _ => none) c5_old_name = .error .ioError :=
  ⟨C6_error_handling_amended.1 300 ⟨c5_old_name, 5, none⟩ c5_old_name
      (fun _ => none) 7 c5_old_name 5 none rfl rfl,
   C6_error_handling_amended.2.1 "EXECUTION_FINISHED" (by decide) (by decide),
   C6_error_handling_amended.2.2.1 300 ⟨c5_old_name, 0, none⟩ c5_old_name
      c6_fs 3 c5_old_name 0 none c6_bad_content .indexError rfl rfl rfl,
   C6_error_handling_amended.2.2.2 (fun _ => none) c5_old_name rfl⟩

/-- C7 (counterexample): the deletion pass walks only
`<extraction_root>/<job_id>/<workflow_name>`, so a file of the archive
lying outside that subtree (here `stray.txt`) survives the rewrite even
though its name is not on the keep-list — unpacking the rewritten archive
does not yield only keep-list files. -/
theorem C7_counterexample :
    "stray.txt" ∈
      archive_file_names (rewrite_archive 10 ["settings.xml"] c7x_archive).1 ∧
    "stray.txt" ∉ (["settings.xml"] : List String) := by
  decide

/-- C7 (amended): after the repack the archive exists exactly at the
original path `P` — `make_archive` writes `P ++ ".zip"` and the `move`
renames it onto `P`, so no `.zip`-suffixed temporary remains; every file
of the walked workflow subtree that survives the rewrite is on the
keep-list; but entries outside the walked subtree are repacked
untouched. -/
theorem C7_rewrite_amended (fs : List String) (input_path : String)
    (max_paths : Nat) (files_to_keep : List String) (a : KnwfArchive) :
    input_path ∈ repack_paths fs input_path ∧
    (input_path ++ ".zip") ∉ repack_paths fs input_path ∧
    (∀ d ∈ (rewrite_archive max_paths files_to_keep a).1.walked,
      ∀ f ∈ d.files, f.1 ∈ files_to_keep) ∧
    (rewrite_archive max_paths files_to_keep a).1.outside = a.outside := by
  refine ⟨?_, ?_, ?_, rfl⟩
  · unfold repack_paths move_fs make_archive_fs
    simp
  · intro h
    unfold repack_paths move_fs make_archive_fs at h
    rcases List.mem_append.mp h with h1 | h1
    · have := (List.mem_filter.mp h1).2
      simp at this
    · have h2 : input_path ++ ".zip" = input_path := List.mem_singleton.mp h1
      have h3 : (input_path ++ ".zip").length = input_path.length + 4 := by
        rw [String.length_append, show (".zip").length = 4 from rfl]
      rw [h2] at h3
      omega
  · intro d hd f hf
    rw [rewrite_archive] at hd
    simp only at hd
    rw [process_dirs_fst] at hd
    obtain ⟨d0, _, hd0⟩ := List.mem_map.mp hd
    rw [← hd0] at hf
    simp only at hf
    exact of_decide_eq_true (List.mem_filter.mp hf).2

/-- C7 (witness): the amended theorem at a concrete backup path and the
two-file archive: the rewritten path list contains exactly the original
`.knwf` path, and the surviving walked file `settings.xml` is on the
keep-list. -/
theorem C7_rewrite_amended_witness :
    "/backups/20240101/job-7-20240101000000/job-7.knwf" ∈
      repack_paths ["other"] "/backups/20240101/job-7-20240101000000/job-7.knwf" ∧
    ("/backups/20240101/job-7-20240101000000/job-7.knwf" ++ ".zip") ∉
      repack_paths ["other"] "/backups/20240101/job-7-20240101000000/job-7.knwf" ∧
    (⟨[("settings.xml", one_path_settings)]⟩ : WalkDir) ∈
      (rewrite_archive 5 ["settings.xml"] c7w_archive).1.walked ∧
    "settings.xml" ∈ (["settings.xml"] : List String) :=
  have h := C7_rewrite_amended ["other"]
    "/backups/20240101/job-7-20240101000000/job-7.knwf" 5 ["settings.xml"]
    c7w_archive
  ⟨h.1, h.2.1, by decide,
   h.2.2.1 ⟨[("settings.xml", one_path_settings)]⟩ (by decide)
     ("settings.xml", one_path_settings) (by decide)⟩

/-- C8 (counterexample): `extract_knwf_info` has no `try/finally`, so an
exception in the walk (deletion pass / settings scan) propagates before
`shutil.rmtree` runs, and an exception in the `shutil.move` — after
`make_archive` has already written the new archive — likewise leaves the
temporary extraction directory in place. -/
theorem C8_counterexample :
    extract_knwf_run (.ok ()) (.error .ioError) (.ok ()) (.ok ()) =
      (.error .ioError, false) ∧
    extract_knwf_run (.ok ()) (.ok ["data/a.csv"]) (.ok ()) (.error .ioError) =
      (.error .ioError, false) :=
  ⟨rfl, rfl⟩

/-- C8 (amended): the temporary extraction directory is removed exactly
when every step — unzip, walk (deletion + scan), `make_archive`, `move` —
completes without exception; any earlier exception propagates and skips
the removal (the removal itself ignores errors, but never runs on a
failed path). -/
theorem C8_cleanup_amended (unzip : Except PyError Unit)
    (walk : Except PyError (List String)) (mk mv : Except PyError Unit) :
    (extract_knwf_run unzip walk mk mv).2 = true ↔
      unzip = .ok () ∧ (∃ paths, walk = .ok paths) ∧
        mk = .ok () ∧ mv = .ok () := by
  cases unzip with
  | error e => simp [extract_knwf_run]
  | ok u =>
    cases u
    cases walk with
    | error e => simp [extract_knwf_run]
    | ok paths =>
      cases mk with
      | error e => simp [extract_knwf_run]
      | ok u2 =>
        cases u2
        cases mv with
        | error e => simp [extract_knwf_run]
        | ok u3 =>
          cases u3
          simp [extract_knwf_run]

/-- C9: on the success path `generate_job_backup` creates
`<backup_root>/<yyyymmdd>/<job_id>-<yyyymmddHHMMSS>/` containing exactly
the files `job-summary.json`, `workflow-summary.json` and
`<job_id>.knwf`, creating the daily parent only if absent, and returns
the `.knwf` path; the per-job directory name is injective in the job id
and the second-granularity timestamp; and when the per-job directory
already exists, its creation fails (`os.makedirs` raises) and the error
propagates to the caller's retry path with no file written. -/
theorem C9_backup_layout (fs : FS) (job_id : String) (ji : JobInfo)
    (parent : String) (t : DT) (download : String → Except PyError Unit) :
    (pathJoin (pathJoin parent (fmt_date t)) (job_dir_name job_id t) ∉ fs.dirs →
      download ji.workflow = .ok () →
      generate_job_backup fs job_id ji parent t download =
        (.ok (pathJoin (pathJoin (pathJoin parent (fmt_date t))
            (job_dir_name job_id t)) (job_id ++ ".knwf")),
         { dirs := (if pathJoin parent (fmt_date t) ∈ fs.dirs then fs.dirs
              else fs.dirs ++ [pathJoin parent (fmt_date t)]) ++
              [pathJoin (pathJoin parent (fmt_date t)) (job_dir_name job_id t)],
           files := fs.files ++
             [pathJoin (pathJoin (pathJoin parent (fmt_date t))
                (job_dir_name job_id t)) "job-summary.json",
              pathJoin (pathJoin (pathJoin parent (fmt_date t))
                (job_dir_name job_id t)) "workflow-summary.json",
              pathJoin (pathJoin (pathJoin parent (fmt_date t))
                (job_dir_name job_id t)) (job_id ++ ".knwf")] })) ∧
    (pathJoin (pathJoin parent (fmt_date t)) (job_dir_name job_id t) ∈ fs.dirs →
      (generate_job_backup fs job_id ji parent t download).1 =
        .error .fileExistsError ∧
      (generate_job_backup fs job_id ji parent t download).2.files = fs.files) ∧
    (∀ j1 j2 t1 t2, DTBounds t1 → DTBounds t2 →
      job_dir_name j1 t1 = job_dir_name j2 t2 → j1 = j2 ∧ t1 = t2) := by
  refine ⟨?_, ?_, fun j1 j2 t1 t2 hb1 hb2 hh =>
    job_dir_name_inj j1 j2 t1 t2 hb1 hb2 hh⟩
  · intro hnin hdl
    have hne_daily : pathJoin (pathJoin parent (fmt_date t))
        (job_dir_name job_id t) ≠ pathJoin parent (fmt_date t) := by
      intro he
      have hl := congrArg String.length he
      rw [pathJoin_length] at hl
      omega
    simp only [generate_job_backup]
    by_cases hd : pathJoin parent (fmt_date t) ∈ fs.dirs
    · rw [if_pos hd, if_neg hnin, hdl, if_pos hd]
      simp
    · rw [if_neg hd,
        if_neg (by
          simp only [List.mem_append, List.mem_singleton]
          rintro (h1 | h1)
          · exact hnin h1
          · exact hne_daily h1),
        hdl, if_neg hd]
      simp
  · intro hin
    simp only [generate_job_backup]
    by_cases hd : pathJoin parent (fmt_date t) ∈ fs.dirs
    · rw [if_pos hd, if_pos hin]
      exact ⟨rfl, rfl⟩
    · rw [if_neg hd, if_pos (List.mem_append_left _ hin)]
      exact ⟨rfl, rfl⟩

/-- C9 (witness): a fresh backup root on 2024-01-01: the backup of
`job-7` creates `/backups/20240101/job-7-20240101000000/` with exactly
the three files and returns the `.knwf` path; on a root already holding
that per-job directory the call fails with `FileExistsError` and writes
nothing. -/
theorem C9_backup_layout_witness :
    generate_job_backup c9_fs "job-7" c9_ji "/backups" c9_t c9_download =
      (.ok "/backups/20240101/job-7-20240101000000/job-7.knwf",
       { dirs := ["/backups", "/backups/20240101",
                  "/backups/20240101/job-7-20240101000000"],
         files := ["/backups/20240101/job-7-20240101000000/job-summary.json",
                   "/backups/20240101/job-7-20240101000000/workflow-summary.json",
                   "/backups/20240101/job-7-20240101000000/job-7.knwf"] }) ∧
    (generate_job_backup c9_fs_clash "job-7" c9_ji "/backups" c9_t
      c9_download).1 = .error .fileExistsError ∧
    ("job-7-20240101000000" : String) = job_dir_name "job-7" c9_t := by
  refine ⟨?_, ?_, by decide⟩
  · have h := (C9_backup_layout c9_fs "job-7" c9_ji "/backups" c9_t
      c9_download).1 (by decide) rfl
    rw [h]
    rfl
  · exact ((C9_backup_layout c9_fs_clash "job-7" c9_ji "/backups" c9_t
      c9_download).2.1 (by decide)).1

/-- C10: constructing `AuditInfo` with an empty path list skips the
`if paths:` branch, so the `paths` attribute is never assigned and every
later `as_xml` call raises `AttributeError`; consequently a job whose
archive yields zero extracted paths fails in the sender construction on
every attempt — the payload is never delivered and the job id is
requeued each time. -/
theorem C10_empty_paths_attribute_error :
    (∀ job_id user_id host workflow_state workflow_timestamp error_message
        audit_path : String,
      ∃ ai, AuditInfo.init job_id user_id host workflow_state
          workflow_timestamp error_message [] audit_path = .ok ai ∧
        ai.paths = none ∧ ai.as_xml = .error (.attributeError "paths")) ∧
    (∀ (api : JobApi) (deliver : String → Except PyError Unit)
        (host now : String) (q : List String) (job_id : String)
        (info : JobInfo) (knwf : String),
      api.get_job_info job_id = .ok info →
      api.get_workflow_summary job_id = .ok () →
      api.generate_backup job_id = .ok knwf →
      api.extract_paths knwf = .ok [] →
      per_job api deliver host now job_id =
        .error (.attributeError "paths") ∧
      main_loop_body api deliver host now q job_id = (q ++ [job_id], 10)) := by
  constructor
  · intro job_id user_id host workflow_state workflow_timestamp error_message
      audit_path
    exact ⟨_, rfl, rfl, rfl⟩
  · intro api deliver host now q job_id info knwf h1 h2 h3 h4
    have hper : per_job api deliver host now job_id =
        .error (.attributeError "paths") := by
      unfold per_job
      rw [h1]
      show Except.bind (api.get_workflow_summary job_id) _ = _
      rw [h2]
      show Except.bind (api.generate_backup job_id) _ = _
      rw [h3]
      show Except.bind (api.extract_paths knwf) _ = _
      rw [h4]
      rfl
    refine ⟨hper, ?_⟩
    unfold main_loop_body
    rw [hper]

/-- C10 (witness): a job whose rewrite extracts zero paths builds the
`AuditInfo` successfully, fails in `as_xml` with `AttributeError`, and is
requeued with the 10-second pause. -/
theorem C10_empty_paths_attribute_error_witness :
    per_job c10_api c4_deliver "knime-host" "2024-01-01T00:00:00+00:00"
      "job-7" = .error (.attributeError "paths") ∧
    main_loop_body c10_api c4_deliver "knime-host" "2024-01-01T00:00:00+00:00"
      [] "job-7" = (["job-7"], 10) :=
  C10_empty_paths_attribute_error.2 c10_api c4_deliver "knime-host"
    "2024-01-01T00:00:00+00:00" [] "job-7" ⟨"alice", "EXECUTED", "wf/MyFlow", []⟩
    "/backups/20240101/job-7-20240101000000/job-7.knwf" rfl rfl rfl rfl

end KnimeAudit
